import Mathlib

/-!
Verification of the query-expansion service (`docker/app/model_handler.py`
and `docker/app/main.py`) against its design specification.

Python strings are modelled as `List Char`; the handful of `str` methods the
code uses (`lower`, `strip`, `split`, `replace`, `in`, slicing) are given
executable models below with Python's semantics for the inputs that occur
(all `replace`/`in` patterns in the code are nonempty ASCII literals).
-/

namespace QueryExpansion

/-- Convert a Lean string literal to the `List Char` model of a Python str. -/
def cs (s : String) : List Char := s.toList

/-- Python `str.isspace` characters relevant to `strip`/`split`. -/
def isSpaceCh (c : Char) : Bool :=
  c == ' ' || c == '\t' || c == '\n' || c == '\r' || c == '\x0b' || c == '\x0c'

/-- Python `s.lower()` (ASCII; all patterns in the code are ASCII). -/
def pyLower (s : List Char) : List Char := s.map Char.toLower

/-- Python `s.strip()`: drop whitespace from both ends. -/
def pyStrip (s : List Char) : List Char :=
  ((s.dropWhile isSpaceCh).reverse.dropWhile isSpaceCh).reverse

/-- `leadsWith pat s` : does `s` start with `pat`? -/
def leadsWith : List Char → List Char → Bool
  | [], _ => true
  | _ :: _, [] => false
  | p :: ps, c :: rest => p == c && leadsWith ps rest

/-- Python `pat in s` (substring containment). -/
def hasSub (pat : List Char) : List Char → Bool
  | [] => leadsWith pat []
  | c :: rest => leadsWith pat (c :: rest) || hasSub pat rest

/-- Fuel-indexed worker for `pyReplace`; fuel `s.length` always suffices. -/
def replFuel (pat rep : List Char) : Nat → List Char → List Char
  | _, [] => []
  | 0, s => s
  | n + 1, c :: rest =>
    if leadsWith pat (c :: rest) then
      rep ++ replFuel pat rep n (List.drop (pat.length - 1) rest)
    else
      c :: replFuel pat rep n rest

/-- Python `s.replace(pat, rep)` for nonempty `pat`: replace every
non-overlapping occurrence, scanning left to right. -/
def pyReplace (s pat rep : List Char) : List Char :=
  replFuel pat rep s.length s

/-- Worker for `pyWords`: accumulates the current word reversed. -/
def wordsAux : List Char → List Char → List (List Char)
  | [], acc => if acc.isEmpty then [] else [acc.reverse]
  | c :: rest, acc =>
    if isSpaceCh c then
      if acc.isEmpty then wordsAux rest [] else acc.reverse :: wordsAux rest []
    else
      wordsAux rest (c :: acc)

/-- Python `s.split()` (no separator): split on whitespace runs, no empties. -/
def pyWords (s : List Char) : List (List Char) := wordsAux s []

/-- Fuel-indexed worker for `pySplit`; fuel `s.length` always suffices. -/
def splitFuel (pat : List Char) : Nat → List Char → List (List Char)
  | _, [] => [[]]
  | 0, s => [s]
  | n + 1, c :: rest =>
    if leadsWith pat (c :: rest) then
      [] :: splitFuel pat n (List.drop (pat.length - 1) rest)
    else
      match splitFuel pat n rest with
      | seg :: segs => (c :: seg) :: segs
      | [] => [[c]]

/-- Python `s.split(pat)` for nonempty `pat`. -/
def pySplit (s pat : List Char) : List (List Char) :=
  splitFuel pat s.length s

/-- Python dict lookup by key equality (string `==` is structural equality). -/
def dictLookup (q : List Char) : List (List Char × List Char) → Option (List Char)
  | [] => none
  | (k, v) :: rest => if q = k then some v else dictLookup q rest

end QueryExpansion

namespace ModelHandler

open QueryExpansion

/-- The exact-match lookup table `expansions` in `_expand_with_mock_model`. -/
def expansions : List (List Char × List Char) := [
  (cs "ML algos", cs "machine learning algorithms"),
  (cs "AI/ML enginer", cs "artificial intelligence machine learning engineer"),
  (cs "deep lerning", cs "deep learning"),
  (cs "NLP techniques", cs "natural language processing techniques"),
  (cs "computer vison", cs "computer vision"),
  (cs "data sci", cs "data science"),
  (cs "neural nets", cs "neural networks"),
  (cs "CNN", cs "convolutional neural networks"),
  (cs "RNN", cs "recurrent neural networks")]

/-- The five guarded substring-repair steps of `_expand_with_mock_model`
(`model_handler.py` lines 263-276): each `if` tests the lowercased query and,
when it fires, performs a case-sensitive `replace` on the running text. -/
def mockRepairs (query : List Char) : List Char :=
  let query_lower := pyLower query
  let expanded := query
  let expanded :=
    if hasSub (cs "algo") query_lower && !hasSub (cs "algorithm") query_lower then
      pyReplace (pyReplace expanded (cs "algo") (cs "algorithm"))
        (cs "algos") (cs "algorithms")
    else expanded
  let expanded :=
    if hasSub (cs "enginer") query_lower then
      pyReplace expanded (cs "enginer") (cs "engineer")
    else expanded
  let expanded :=
    if hasSub (cs "lerning") query_lower then
      pyReplace expanded (cs "lerning") (cs "learning")
    else expanded
  let expanded :=
    if hasSub (cs "vison") query_lower then
      pyReplace expanded (cs "vison") (cs "vision")
    else expanded
  let expanded :=
    if hasSub (cs "sci") query_lower && (pyWords query).length ≤ 2 then
      pyReplace expanded (cs "sci") (cs "science")
    else expanded
  expanded

/-- `_expand_with_mock_model` (`model_handler.py` lines 244-285): exact-table
lookup, then the repair steps, then the short-single-token suffix, and the
`enhanced` marker when nothing changed.  The `asyncio.sleep` is timing only. -/
def expandWithMockModel (query : List Char) : List Char :=
  match dictLookup query expansions with
  | some v => v
  | none =>
    let expanded := mockRepairs query
    let expanded :=
      if (pyWords query).length == 1 && query.length ≤ 4 then
        expanded ++ cs " techniques and applications"
      else expanded
    if expanded ≠ query then expanded else cs "enhanced " ++ query

/-- `_clean_response` (`model_handler.py` lines 287-300). -/
def cleanResponse (response : List Char) : List Char :=
  let response := pyStrip response
  let response :=
    if response.head? == some '"' && response.getLast? == some '"' then
      (response.drop 1).dropLast
    else response
  if response.length > 200 then pyStrip (response.take 200) else response

/-- `_expand_with_real_model` on successfully generated text
(`model_handler.py` lines 194-238): extract the text after the last
`"Improved query:"` delimiter (falling back to the original query when the
delimiter is absent), then clean it. -/
def realModelPostprocess (query generated_text : List Char) : List Char :=
  let expanded_query :=
    if hasSub (cs "Improved query:") generated_text then
      pyStrip ((pySplit generated_text (cs "Improved query:")).getLastD [])
    else query
  cleanResponse expanded_query

/-- `_expand_with_real_model` (`model_handler.py` lines 192-242).  The
tokenize/generate/decode round trip through the backend is the oracle `gen`:
`.ok t` means decoding produced text `t`, `.error e` means some stage raised.
The function's own `except` block answers any raise with the mock path. -/
def expandWithRealModel (query : List Char) (gen : Except ε (List Char)) :
    List Char :=
  match gen with
  | .error _ => expandWithMockModel query
  | .ok generated_text => realModelPostprocess query generated_text

/-- The fields of `LlamaQueryExpander` that `expand_query` consults:
`ready`, plus the two `hasattr` probes on `self.model` / `self.tokenizer`. -/
structure EngineModel where
  ready : Bool
  hasGenerateAttr : Bool
  hasDecodeAttr : Bool

/-- `expand_query` (`model_handler.py` lines 174-190): raises `RuntimeError`
when not ready; otherwise dispatches on the `hasattr` probes, and its
`except` block (lines 188-190) answers any raise with the mock path.  In
this model `expandWithRealModel` is total (it absorbs backend failures
itself, lines 240-242), so the outer `except` has nothing left to catch. -/
def expand_query (st : EngineModel) (gen : Except ε (List Char))
    (query : List Char) : Except (List Char) (List Char) :=
  if !st.ready then
    .error (cs "Model not loaded")
  else if st.hasGenerateAttr && st.hasDecodeAttr then
    .ok (expandWithRealModel query gen)
  else
    .ok (expandWithMockModel query)

/-- What occupies the `self.model` / `self.tokenizer` slots. -/
inductive Slot
  | vacant
  | real
  | mock
  deriving DecidableEq, Repr

/-- The `LlamaQueryExpander` state that loading and readiness touch. -/
structure HandlerState where
  model : Slot
  tokenizer : Slot
  ready : Bool

/-- `LlamaQueryExpander.__init__`: both slots `None`, `ready = False`. -/
def initState : HandlerState := ⟨.vacant, .vacant, false⟩

/-- `is_ready` (`model_handler.py` lines 302-304):
`self.ready and self.model is not None`. -/
def is_ready (st : HandlerState) : Bool :=
  st.ready && decide (st.model ≠ .vacant)

/-- `_create_mock_model` (`model_handler.py` lines 137-172): installs the
mock model and tokenizer and sets `ready = True`; it performs no fallible
operation. -/
def createMockModel (_st : HandlerState) : HandlerState :=
  { model := .mock, tokenizer := .mock, ready := true }

/-- The environment outcomes `load_model` depends on: the `HF_TOKEN`
variable (`None`, empty, or a value) and whether each `from_pretrained`
call (tokenizer, quantized model, non-quantized fallback model) succeeds. -/
structure LoadEnv where
  hfToken : Option (List Char)
  tokenizerOk : Bool
  modelOk : Bool
  fallbackOk : Bool

/-- Python truthiness of `os.getenv("HF_TOKEN")`: `None` and `""` are falsy. -/
def tokenTruthy : Option (List Char) → Bool
  | some (_ :: _) => true
  | _ => false

/-- `load_model` (`model_handler.py` lines 36-135).  Raises from the missing
token check, the tokenizer load, or both model-load attempts reach the outer
`except` (lines 132-135), which builds the mock model instead; every success
path sets `ready = True`. -/
def load_model (env : LoadEnv) (st : HandlerState) : HandlerState :=
  if !(tokenTruthy env.hfToken) then
    createMockModel st
  else if !env.tokenizerOk then
    createMockModel st
  else
    let st := { st with tokenizer := .real }
    if env.modelOk then
      { st with model := .real, ready := true }
    else if env.fallbackOk then
      { st with model := .real, ready := true }
    else
      createMockModel st

end ModelHandler

namespace Gateway

open QueryExpansion

/-- The request body accepted by `POST /expand` (`main.py` lines 84-86). -/
structure QueryRequest where
  query : List Char
  use_queue : Bool

/-- The `QueryResponse` body (`main.py` lines 88-92); `processing_time` is an
abstract clock reading. -/
structure QueryResponse where
  original_query : List Char
  expanded_query : List Char
  processing_time : Nat
  queued : Bool
  deriving DecidableEq, Repr

/-- Outcome of the handler as the HTTP layer sees it: a 200 body, or an
`HTTPException` escaping the function. -/
inductive HttpResult
  | ok (resp : QueryResponse)
  | httpError (status : Nat) (detail : List Char)
  deriving DecidableEq, Repr

/-- HTTP status of a handler outcome. -/
def statusOf : HttpResult → Nat
  | .ok _ => 200
  | .httpError s _ => s

/-- Python exceptions that can be raised inside the handler's `try` block. -/
inductive PyExn
  | httpExc (status : Nat) (detail : List Char)
  | raised (msg : List Char)
  deriving DecidableEq, Repr

/-- `str(e)` as used in the re-raise (only its presence matters to the
claims; for `HTTPException` we surface the detail text). -/
def strOfExn : PyExn → List Char
  | .httpExc _ d => d
  | .raised m => m

/-- Count of side effects on the module-level collaborators: the two
Prometheus counters, the latency histogram, calls into
`model_handler.expand_query`, `sqs_handler.send_message`, and background
MLflow logging tasks. -/
structure Effects where
  requestCount : Nat
  errorCount : Nat
  engineCalls : Nat
  queueSends : Nat
  latencyObservations : Nat
  backgroundLogTasks : Nat
  deriving DecidableEq, Repr

/-- The globals and collaborator outcomes a single request observes:
whether `model_handler` is set and ready, whether `sqs_handler` is set,
the result of `sqs_handler.send_message` (`.ok` message id or a raise),
the result of `model_handler.expand_query` (`.ok` text or a raise),
whether `mlflow_logger` is set, and the measured elapsed time. -/
structure RequestEnv where
  handlerSet : Bool
  engineReady : Bool
  sqsSet : Bool
  sendOutcome : Except (List Char) (List Char)
  expandOutcome : Except (List Char) (List Char)
  mlflowSet : Bool
  elapsed : Nat

/-- Body of the `try` block of `expand_query` (`main.py` lines 121-163),
threading the effect counters; `.error` is a raised exception. -/
def expandBody (env : RequestEnv) (req : QueryRequest) (eff : Effects) :
    Except PyExn QueryResponse × Effects :=
  if !env.handlerSet || !env.engineReady then
    (.error (.httpExc 503 (cs "Model not ready")),
     { eff with errorCount := eff.errorCount + 1 })
  else if req.use_queue && env.sqsSet then
    let eff := { eff with queueSends := eff.queueSends + 1 }
    match env.sendOutcome with
    | .error e => (.error (.raised e), eff)
    | .ok _message_id =>
      (.ok { original_query := req.query,
             expanded_query := cs "Request queued for processing",
             processing_time := env.elapsed,
             queued := true }, eff)
  else
    let eff := { eff with engineCalls := eff.engineCalls + 1 }
    match env.expandOutcome with
    | .error e => (.error (.raised e), eff)
    | .ok expanded_query =>
      let eff :=
        if env.mlflowSet then
          { eff with backgroundLogTasks := eff.backgroundLogTasks + 1 }
        else eff
      let eff := { eff with latencyObservations := eff.latencyObservations + 1 }
      (.ok { original_query := req.query,
             expanded_query := expanded_query,
             processing_time := env.elapsed,
             queued := false }, eff)

/-- `expand_query` handler (`main.py` lines 115-168).  `REQUEST_COUNT` is
incremented first; FastAPI's `HTTPException` subclasses `Exception`, so the
blanket `except Exception` (lines 165-168) catches every raise from the
`try` block — including the 503 `HTTPException` raised on line 124 — bumps
`ERROR_COUNT`, and re-raises it as a 500 `HTTPException`. -/
def expand_handler (env : RequestEnv) (req : QueryRequest) :
    HttpResult × Effects :=
  let eff : Effects := ⟨1, 0, 0, 0, 0, 0⟩
  match expandBody env req eff with
  | (.ok resp, eff) => (.ok resp, eff)
  | (.error e, eff) =>
    (.httpError 500 (strOfExn e), { eff with errorCount := eff.errorCount + 1 })

end Gateway

namespace RepairSpec

open QueryExpansion

/-- A targeted repair as the (amended) spec words describe one: a firing
condition on the query and a substitution on the running text. -/
structure RepairRule where
  fires : List Char → Bool
  subst : List Char → List Char

/-- The five repairs with their triggers and guards: `enginer`, `lerning`
and `vison` fire whenever their trigger occurs in the lowercased query;
`algo` additionally requires `algorithm` absent from the lowercased query;
`sci` additionally requires at most two whitespace-separated words. -/
def repairRules : List RepairRule := [
  ⟨fun q => hasSub (cs "algo") (pyLower q) && !hasSub (cs "algorithm") (pyLower q),
   fun t => pyReplace (pyReplace t (cs "algo") (cs "algorithm")) (cs "algos") (cs "algorithms")⟩,
  ⟨fun q => hasSub (cs "enginer") (pyLower q),
   fun t => pyReplace t (cs "enginer") (cs "engineer")⟩,
  ⟨fun q => hasSub (cs "lerning") (pyLower q),
   fun t => pyReplace t (cs "lerning") (cs "learning")⟩,
  ⟨fun q => hasSub (cs "vison") (pyLower q),
   fun t => pyReplace t (cs "vison") (cs "vision")⟩,
  ⟨fun q => hasSub (cs "sci") (pyLower q) && (pyWords q).length ≤ 2,
   fun t => pyReplace t (cs "sci") (cs "science")⟩]

/-- Run the repairs in sequence over the running text: each rule whose
condition fires on the original query substitutes into the text produced by
the earlier rules, so multiple corrections can apply to one query. -/
def runRepairs (q : List Char) : List Char :=
  repairRules.foldl (fun t r => if r.fires q then r.subst t else t) q

end RepairSpec

section Lemmas

open QueryExpansion ModelHandler

/-- Stripping never lengthens a string. -/
theorem pyStrip_length_le (s : List Char) : (pyStrip s).length ≤ s.length := by
  unfold pyStrip
  calc ((s.dropWhile isSpaceCh).reverse.dropWhile isSpaceCh).reverse.length
      = ((s.dropWhile isSpaceCh).reverse.dropWhile isSpaceCh).length := by
        simp
    _ ≤ (s.dropWhile isSpaceCh).reverse.length :=
        (List.dropWhile_sublist _).length_le
    _ = (s.dropWhile isSpaceCh).length := by simp
    _ ≤ s.length := (List.dropWhile_sublist _).length_le

/-- The truncation step of `_clean_response` caps the length at 200. -/
theorem truncStep_length_le (b : List Char) :
    (if b.length > 200 then pyStrip (b.take 200) else b).length ≤ 200 := by
  split
  · exact le_trans (pyStrip_length_le _)
      (by rw [List.length_take]; exact Nat.min_le_left _ _)
  · omega

/-- `_clean_response` always returns at most 200 characters: the final
branch either keeps a text already of length ≤ 200 or strips a 200-character
slice. -/
theorem cleanResponse_length_le (s : List Char) :
    (cleanResponse s).length ≤ 200 := by
  unfold cleanResponse
  dsimp only
  exact truncStep_length_le _

/-- The final guard of `_expand_with_mock_model` never returns its input:
it hands back the rewritten text only when that text differs from the query,
and otherwise prepends the 9-character `enhanced ` marker. -/
theorem finalGuard_ne (e q : List Char) :
    (if e ≠ q then e else cs "enhanced " ++ q) ≠ q := by
  split
  · next h => exact h
  · next h =>
    intro hcontra
    have hlen := congrArg List.length hcontra
    rw [List.length_append] at hlen
    have h9 : (cs "enhanced ").length = 9 := by decide
    omega

/-- The exact-match table never maps a key to itself. -/
theorem dictLookup_expansions_ne (q v : List Char)
    (h : dictLookup q expansions = some v) : v ≠ q := by
  simp only [expansions, dictLookup] at h
  split_ifs at h with h1 h2 h3 h4 h5 h6 h7 h8 h9 <;>
    first
      | exact Option.noConfusion h
      | (injection h with hv; subst_vars; decide)

end Lemmas

section Claims

open QueryExpansion ModelHandler Gateway

/-- C1: the claim says a request arriving while the engine is not ready is
answered with HTTP 503 and the engine is not invoked.  The engine is indeed
not invoked (`engineCalls = 0`), but the 503 `HTTPException` raised inside
the `try` block is itself an `Exception`, so the handler's own
`except Exception` catches it and re-raises it as HTTP 500: with
`model_handler` absent (or present but not ready), `POST /expand` yields
status 500, not 503. -/
theorem expand_not_ready_yields_500_not_503 :
    (expand_handler ⟨false, false, false, .error [], .error [], false, 0⟩
        ⟨cs "test query", false⟩
      = (.httpError 500 (cs "Model not ready"), ⟨1, 2, 0, 0, 0, 0⟩))
  ∧ (expand_handler ⟨true, false, false, .error [], .error [], false, 0⟩
        ⟨cs "test query", false⟩
      = (.httpError 500 (cs "Model not ready"), ⟨1, 2, 0, 0, 0, 0⟩))
  ∧ statusOf (expand_handler
        ⟨false, false, false, .error [], .error [], false, 0⟩
        ⟨cs "test query", false⟩).1 ≠ 503 :=
  ⟨by decide, by decide, by decide⟩

/-- C2: whenever the engine is ready and the real-model generation path
raises (the backend oracle is `.error`), `expand_query` does not propagate
the error: it returns `.ok` of the deterministic mock expansion of the same
query, whichever way the `hasattr` dispatch went. -/
theorem expand_query_generation_failure_falls_back_to_mock
    (st : EngineModel) (q : List Char) (e : ε) (hready : st.ready = true) :
    ModelHandler.expand_query st (.error e) q
      = .ok (expandWithMockModel q) := by
  unfold ModelHandler.expand_query
  rw [hready]
  by_cases hattr : (st.hasGenerateAttr && st.hasDecodeAttr) = true <;>
    simp [hattr, expandWithRealModel]

/-- Witness for C2 at a concrete ready engine and query. -/
theorem expand_query_generation_failure_falls_back_to_mock_witness :
    (⟨true, true, true⟩ : EngineModel).ready = true
  ∧ ModelHandler.expand_query (⟨true, true, true⟩ : EngineModel)
      (Except.error ()) (cs "ML algos")
      = .ok (expandWithMockModel (cs "ML algos")) :=
  ⟨rfl, expand_query_generation_failure_falls_back_to_mock
    ⟨true, true, true⟩ (cs "ML algos") () rfl⟩

/-- C3: for every input string, the mock expansion returns something
different from the input: either the lookup table fires (and no table entry
maps a key to itself), or the final guard returns the rewritten text only
when it changed, prepending the `enhanced` marker otherwise. -/
theorem mock_expansion_never_returns_input (q : List Char) :
    expandWithMockModel q ≠ q := by
  unfold expandWithMockModel
  cases hq : dictLookup q expansions with
  | some v => exact dictLookup_expansions_ne q v hq
  | none =>
    dsimp only
    exact finalGuard_ne _ q

/-- C4: the mock expansion is a pure function of its input — two
invocations on the same query return identical outputs. -/
theorem mock_expansion_deterministic :
    ∀ q : List Char, expandWithMockModel q = expandWithMockModel q :=
  fun _ => rfl

/-- C5: the three specific inputs map as stated: the exact-match table for
`"ML algos"`, the single-short-token suffix for `"xyz"`, and the `enhanced`
marker for `"already fine phrase"`. -/
theorem mock_expansion_specific_inputs :
    expandWithMockModel (cs "ML algos") = cs "machine learning algorithms"
  ∧ expandWithMockModel (cs "xyz") = cs "xyz techniques and applications"
  ∧ expandWithMockModel (cs "already fine phrase")
      = cs "enhanced already fine phrase" :=
  ⟨by decide, by decide, by decide⟩

/-- C6: `_clean_response` trims surrounding whitespace, strips one matching
pair of enclosing double quotes, and caps the result at 200 characters; in
particular every length-300 input comes back with length ≤ 200. -/
theorem clean_response_contract :
    cleanResponse (cs "\"abc\"") = cs "abc"
  ∧ cleanResponse (cs " spaced ") = cs "spaced"
  ∧ ∀ s : List Char, s.length = 300 → (cleanResponse s).length ≤ 200 :=
  ⟨by decide, by decide, fun s _ => cleanResponse_length_le s⟩

/-- Witness for C6 at the concrete length-300 input `replicate 300 'a'`. -/
theorem clean_response_contract_witness :
    (List.replicate 300 'a').length = 300
  ∧ (cleanResponse (List.replicate 300 'a')).length ≤ 200 :=
  ⟨List.length_replicate 300 'a',
   clean_response_contract.2.2 (List.replicate 300 'a')
     (List.length_replicate 300 'a')⟩

/-- C7: whatever the environment (missing/empty credential, tokenizer load
failure, both model-load attempts failing), `load_model` ends with the
handler ready: every failure path installs the mock model and sets
`ready = True`, so `is_ready()` returns `true` and no failed end state
exists. -/
theorem load_model_always_ends_ready (env : LoadEnv) (st : HandlerState) :
    is_ready (load_model env st) = true
  ∧ (load_model env st).ready = true
  ∧ (load_model env st).model ≠ .vacant := by
  unfold load_model
  dsimp only
  split_ifs <;> simp [is_ready, createMockModel]

/-- C8: with the engine ready, a configured queue, `use_queue = true` and a
successful send, the handler sends exactly one queue message and answers 200
with `queued = true` and the fixed placeholder text, never calling the
engine (`engineCalls = 0`) and never sampling the latency histogram
(`latencyObservations = 0`). -/
theorem expand_queued_path_contract (env : RequestEnv) (req : QueryRequest)
    (m : List Char) (hh : env.handlerSet = true) (hr : env.engineReady = true)
    (hq : req.use_queue = true) (hs : env.sqsSet = true)
    (hsend : env.sendOutcome = .ok m) :
    expand_handler env req =
      (.ok { original_query := req.query,
             expanded_query := cs "Request queued for processing",
             processing_time := env.elapsed,
             queued := true },
       { requestCount := 1, errorCount := 0, engineCalls := 0,
         queueSends := 1, latencyObservations := 0,
         backgroundLogTasks := 0 }) := by
  obtain ⟨h1, h2, h3, h4, h5, h6, h7⟩ := env
  obtain ⟨qtext, u⟩ := req
  dsimp only at hh hr hq hs hsend
  subst hh; subst hr; subst hq; subst hs; subst hsend
  rfl

/-- Witness for C8 at a concrete environment and request. -/
theorem expand_queued_path_contract_witness :
    (⟨true, true, true, .ok (cs "msg-1"), .error [], false, 7⟩
        : RequestEnv).handlerSet = true
  ∧ expand_handler
      (⟨true, true, true, .ok (cs "msg-1"), .error [], false, 7⟩ : RequestEnv)
      (⟨cs "test query", true⟩ : QueryRequest) =
      (.ok ⟨cs "test query", cs "Request queued for processing", 7, true⟩,
       ⟨1, 0, 0, 1, 0, 0⟩) :=
  ⟨rfl, expand_queued_path_contract
    ⟨true, true, true, .ok (cs "msg-1"), .error [], false, 7⟩
    ⟨cs "test query", true⟩ (cs "msg-1") rfl rfl rfl rfl rfl⟩

/-- C9 counterexample: `"data sci research papers"` contains the trigger
`sci` in its lowercased form, yet the mock expansion does not apply the
`sci → science` substitution (the rule also requires at most two words), so
the output is the `enhanced`-marked original, not the substituted text. -/
theorem mock_repair_guard_counterexample :
    hasSub (cs "sci") (pyLower (cs "data sci research papers")) = true
  ∧ expandWithMockModel (cs "data sci research papers")
      = cs "enhanced data sci research papers"
  ∧ pyReplace (cs "data sci research papers") (cs "sci") (cs "science")
      = cs "data science research papers"
  ∧ expandWithMockModel (cs "data sci research papers")
      ≠ cs "data science research papers" :=
  ⟨by decide, by decide, by decide, by decide⟩

/-- C9 amended: the repair stage equals a sequence of five independent
guarded substitutions on the running text — `enginer`, `lerning`, `vison`
fire exactly when their trigger occurs in the lowercased query, `algo` also
requires `algorithm` absent from the lowercased query, `sci` also requires
at most two words, and each fires regardless of the others, so multiple
corrections can apply to one query (e.g. `"deep lerning enginer"` receives
both the `lerning` and the `enginer` corrections). -/
theorem mock_repairs_guarded_chain :
    (∀ q : List Char, mockRepairs q = RepairSpec.runRepairs q)
  ∧ expandWithMockModel (cs "deep lerning enginer")
      = cs "deep learning engineer" :=
  ⟨fun _ => rfl, by decide⟩

/-- C10: on the one-character input consisting of a lone double quote, the
quote-stripping step fires (the input both starts and ends with `"`, with no
minimum length) and removes the only character, leaving the empty string. -/
theorem clean_response_lone_quote : cleanResponse (cs "\"") = cs "" := by
  decide

end Claims

